import Mathlib

/-!
Verification model of the query-time RAG pipeline of this repository
(`src/retrieval/retriever.py`, `src/retrieval/rag_pipeline.py`,
`src/generation/prompt_builder.py`, `src/config/prompts.py`,
`src/embeddings/embedder.py`, `src/evaluation/metrics/rag_metrics.py`).

Modelling conventions.
* Python `float` values (similarity scores, metric scores) are modelled as
  exact rationals `ℚ`.  Because the core `Rat.add`, `Rat.mul`, ... are
  marked irreducible (which blocks `decide`-style evaluation), the model
  uses the kernel-reducible wrappers `qadd`, `qsub`, `qmul`, `qdiv`,
  `qsum`, `ratN` below; the bridge lemmas `qadd_eq`, `qsub_eq`, `qmul_eq`,
  `qdiv_eq`, `qsum_eq`, `ratN_eq` prove they are exactly `+`, `-`, `*`,
  `/`, `List.sum` and the natural-number cast on `ℚ`.  Rational constants
  are written `mkRat a b` (= `a / b`).
* Python `str` values are modelled as `PyStr := List Char` (a Python string
  is a sequence of code points), with structural re-implementations of the
  string methods used by the source (`lower`, `strip`, `split`,
  `startswith`, `in`, `capitalize`, `replace`), restricted to ASCII case
  folding and ASCII whitespace, which is all the source's data uses.
* Python dicts with a fixed key set are structures; keys that the source
  reads with `dict.get(key, default)` and that may be absent are `Option`
  fields, with the call site's default applied by `Option.getD`.
* The FAISS index search (`IndexFlatIP.search(query_vector, k)`) is
  modelled by an oracle list `cands : List (ℚ × Int)` of
  (similarity, position) pairs in the order the index returns them; a
  search for `k > 0` results returns `cands.take k`.  FAISS pads missing
  rows with position `-1`, which the source's loop treats exactly like
  the end of the list, so the truncated-list model is faithful.  FAISS
  validates `k`: its Python wrapper asserts `k > 0`, so a `k = 0` search
  raises — `index_search` models this, `retrieve` models the call after
  a successful search, and `retrieveE` combines the two.
* The external OpenAI services (embedding, chat completion) are oracle
  functions supplied as parameters; a raised exception is `Except.error`.
-/

/-- Python strings as sequences of code points. -/
abbrev PyStr := List Char

/-- A Lean string literal as a `PyStr`. -/
def pys (s : String) : PyStr := s.data

/-- The apostrophe code point (U+0027), used when building string constants. -/
def apoChar : Char := Char.ofNat 39

/-- One-character string holding the apostrophe. -/
def apo : PyStr := [apoChar]

/-- Kernel-reducible `a + b` on `ℚ` (see the module docstring). -/
def qadd (a b : ℚ) : ℚ := mkRat (a.num * b.den + b.num * a.den) (a.den * b.den)

/-- Kernel-reducible `-a` on `ℚ`. -/
def qneg (a : ℚ) : ℚ := mkRat (-a.num) a.den

/-- Kernel-reducible `a - b` on `ℚ`. -/
def qsub (a b : ℚ) : ℚ := qadd a (qneg b)

/-- Kernel-reducible `a * b` on `ℚ`. -/
def qmul (a b : ℚ) : ℚ := mkRat (a.num * b.num) (a.den * b.den)

/-- Kernel-reducible `a / b` on `ℚ` (0 when `b = 0`, as in Mathlib). -/
def qdiv (a b : ℚ) : ℚ :=
  if b.num < 0 then mkRat (-(a.num * b.den)) (a.den * (-b.num).toNat)
  else mkRat (a.num * b.den) (a.den * b.num.toNat)

/-- Kernel-reducible Python `sum` of a list of rationals. -/
def qsum (l : List ℚ) : ℚ := l.foldl qadd 0

/-- Kernel-reducible cast `ℕ → ℚ`. -/
def ratN (n : Nat) : ℚ := mkRat (Int.ofNat n) 1

/-- ASCII lower-casing of one code point (Python `str.lower` on the
source's ASCII data). -/
def pyLowerChar (c : Char) : Char :=
  if 65 ≤ c.toNat ∧ c.toNat ≤ 90 then Char.ofNat (c.toNat + 32) else c

/-- ASCII upper-casing of one code point. -/
def pyUpperChar (c : Char) : Char :=
  if 97 ≤ c.toNat ∧ c.toNat ≤ 122 then Char.ofNat (c.toNat - 32) else c

/-- Python `str.lower()`. -/
def pyLower (s : PyStr) : PyStr := s.map pyLowerChar

/-- Python's ASCII whitespace (space, tab, newline, carriage return,
vertical tab, form feed). -/
def pyIsSpace (c : Char) : Bool :=
  c.toNat = 32 || c.toNat = 9 || c.toNat = 10 || c.toNat = 13 ||
  c.toNat = 11 || c.toNat = 12

/-- Python `str.strip()`. -/
def pyStrip (s : PyStr) : PyStr :=
  ((s.dropWhile pyIsSpace).reverse.dropWhile pyIsSpace).reverse

/-- Helper of `pySplitWs`: walk the text, `cur` holds the current run of
non-whitespace characters in reverse. -/
def pySplitWsGo : PyStr → PyStr → List PyStr
  | [], cur => if cur.isEmpty then [] else [cur.reverse]
  | c :: cs, cur =>
    if pyIsSpace c then
      if cur.isEmpty then pySplitWsGo cs [] else cur.reverse :: pySplitWsGo cs []
    else pySplitWsGo cs (c :: cur)

/-- Python `str.split()` with no argument: split on whitespace runs and
drop empty pieces. -/
def pySplitWs (s : PyStr) : List PyStr := pySplitWsGo s []

/-- Does `p` begin with `needle`?  (Python `str.startswith`.) -/
def pyBeginsWith : PyStr → PyStr → Bool
  | [], _ => true
  | _ :: _, [] => false
  | a :: as_, b :: bs => a = b && pyBeginsWith as_ bs

/-- Python `needle in hay` on strings (substring containment). -/
def pyContains : PyStr → PyStr → Bool
  | [], needle => needle.isEmpty
  | hay@(_ :: t), needle => pyBeginsWith needle hay || pyContains t needle

/-- Python `str.capitalize()`: first code point upper-cased, the rest
lower-cased. -/
def pyCapitalize : PyStr → PyStr
  | [] => []
  | c :: t => pyUpperChar c :: t.map pyLowerChar

/-- Python `text.replace("\n", " ")` (the only `replace` the source uses:
a one-character needle, so a character map is faithful). -/
def pyReplaceNlSpace (s : PyStr) : PyStr :=
  s.map fun c => if c = '\n' then ' ' else c

/-- Python `"sep".join(parts)`. -/
def pyJoin (sep : PyStr) (parts : List PyStr) : PyStr :=
  List.intercalate sep parts

/-- Decimal digits of a natural number as a `PyStr` (via `Nat.repr`). -/
def pyNat (n : Nat) : PyStr := (Nat.repr n).data


/-- The chunk-level metadata dict stored for each indexed document
(`metadata` key of a metadata record; written by
`src/embeddings/build_index.py` from `doc.metadata`).  The source reads
it only through `dict.get`, so every key is optional. -/
structure ChunkMetadata where
  source : Option PyStr := none
  filename : Option PyStr := none
  file_type : Option PyStr := none
deriving DecidableEq

/-- One row of the metadata table `metadata.json` (list saved by
`IndexBuilder.build_index`, loaded in `Retriever._load_index`).  Read only
through `dict.get`, so the keys are optional; a missing row is the empty
dict, i.e. all fields `none`. -/
structure DocRecord where
  content : Option PyStr := none
  metadata : Option ChunkMetadata := none
deriving DecidableEq

/-- One element of the list `Retriever.retrieve` returns
(`{"content": ..., "metadata": ..., "score": ...}`). -/
structure RetrievalResult where
  content : PyStr
  metadata : ChunkMetadata
  score : ℚ
deriving DecidableEq

/-- The retriever's configuration fields read from `settings.retrieval`
in `Retriever.__init__`. -/
structure RetrieverConfig where
  top_k : Nat
  similarity_threshold : ℚ
  rerank : Bool
  edge_case_min_score : ℚ

/-- Model of `min(max(similarity_score, 0.0), 1.0)` — retriever.py line 92. -/
def clamp01 (s : ℚ) : ℚ := min (max s 0) 1

/-- Metadata lookup by FAISS position — retriever.py lines 99-108 for the
list-typed metadata table the index builder writes: in range gives the
row, out of range gives the empty dict. -/
def docLookup (md : List DocRecord) (i : Int) : DocRecord :=
  if 0 ≤ i then md.getD i.toNat {} else {}

/-- The `source` a candidate dedups on — retriever.py line 111:
`doc_metadata.get("metadata", {}).get("source", "")`. -/
def docSource (d : DocRecord) : PyStr := ((d.metadata.getD {}).source).getD []

/-- The `source` of a returned result (its `metadata` dict's `"source"`,
default `""`). -/
def resSource (r : RetrievalResult) : PyStr := r.metadata.source.getD []

/-- The result dict appended for a fresh candidate that passes the
threshold — retriever.py lines 120-126. -/
def newResult (md : List DocRecord) (doc_idx : Int) (normalized_score : ℚ) :
    RetrievalResult :=
  { content := (docLookup md doc_idx).content.getD []
    metadata := (docLookup md doc_idx).metadata.getD {}
    score := normalized_score }

/-- The candidate loop of `Retriever.retrieve` — retriever.py lines 78-130.
Arguments mirror the loop state: remaining `(distance, doc_idx)` pairs,
`seen_sources`, `max_score`, `results`.  A `doc_idx` of `-1` breaks; a seen
source `continue`s (skipping the size check); otherwise the threshold
filter may append, and the loop breaks once `len(results) >= top_k`. -/
def retrieveLoop (top_k : Nat) (threshold : ℚ) (md : List DocRecord) :
    List (ℚ × Int) → List PyStr → ℚ → List RetrievalResult →
    List RetrievalResult × ℚ
  | [], _seen, max_score, results => (results, max_score)
  | (distance, doc_idx) :: rest, seen, max_score, results =>
    if doc_idx = -1 then (results, max_score)
    else
      let normalized_score := clamp01 distance
      let max_score' := if normalized_score > max_score then normalized_score
        else max_score
      let doc_metadata := docLookup md doc_idx
      let source_file := docSource doc_metadata
      if source_file ∈ seen then
        retrieveLoop top_k threshold md rest seen max_score' results
      else
        let results' :=
          if normalized_score ≥ threshold then
            results ++ [newResult md doc_idx normalized_score]
          else results
        if results'.length ≥ top_k then (results', max_score')
        else retrieveLoop top_k threshold md rest (source_file :: seen)
          max_score' results'

/-- Score boost of one result in `Retriever._rerank_results` —
retriever.py lines 217-225: count the (deduplicated) query terms contained
in the lower-cased content, boost by `min(matches * 0.05, 0.15)`, cap the
score at 1.0. -/
def rerankBoost (query_terms : List PyStr) (r : RetrievalResult) :
    RetrievalResult :=
  let content_lower := pyLower r.content
  let keyword_matches :=
    (query_terms.filter fun t => pyContains content_lower t).length
  let boost := min (qmul (ratN keyword_matches) (mkRat 5 100)) (mkRat 15 100)
  { r with score := min (qadd r.score boost) 1 }

/-- Model of `Retriever._rerank_results` — retriever.py lines 206-228.  Python's
`sorted(..., reverse=True)` is a stable descending sort; it is modelled by
the (stable) insertion sort on the strict order `a.score > b.score`, which
agrees with every stable sort for the same key. -/
def rerank_results (query : PyStr) (results : List RetrievalResult) :
    List RetrievalResult :=
  let query_terms := (pySplitWs (pyLower query)).dedup
  (results.map (rerankBoost query_terms)).insertionSort
    fun a b => a.score > b.score

/-- Model of `Retriever.retrieve` after a successful index search —
retriever.py lines 41-153.  `cands` is the index-search oracle (see the
module docstring); `top_k?` and `similarity_threshold?` are the optional
arguments, `None` meaning the configured defaults.  Steps: over-fetch
`search_k = top_k * 3`, run the candidate loop, apply the low-confidence
gate, then optionally rerank.  FAISS accepts the search only for
`search_k > 0`; `retrieveE` below adds that validation (the `search_k = 0`
call raises instead of returning rows), so this pure function describes
the call exactly whenever the search succeeds. -/
def retrieve (cfg : RetrieverConfig) (cands : List (ℚ × Int))
    (md : List DocRecord) (query : PyStr) (top_k? : Option Nat)
    (similarity_threshold? : Option ℚ) : List RetrievalResult :=
  let top_k := top_k?.getD cfg.top_k
  let similarity_threshold := similarity_threshold?.getD cfg.similarity_threshold
  let search_k := top_k * 3
  let out := retrieveLoop top_k similarity_threshold md (cands.take search_k)
    [] 0 []
  if out.2 < cfg.edge_case_min_score then []
  else if cfg.rerank then rerank_results query out.1 else out.1

/-- Model of `self.index.search(query_vector, k)` — retriever.py line 75 —
including faiss's validation of `k`: the faiss Python wrapper asserts
`k > 0` (`assert k > 0` in `replacement_search`; the C++ core throws via
`FAISS_THROW_IF_NOT(k > 0)` in `IndexFlat::search`), so a search with
`k = 0` raises instead of returning rows; otherwise it returns the top
`k` candidates. -/
def index_search (cands : List (ℚ × Int)) (k : Nat) :
    Except PyStr (List (ℚ × Int)) :=
  if k = 0 then Except.error (pys "assert k > 0")
  else Except.ok (cands.take k)

/-- Model of the full `Retriever.retrieve` call including the index
search — retriever.py lines 41-153.  An exception raised by the search is
caught, logged and re-raised by the `except` block at lines 151-153, so
it propagates to the caller (`Except.error`); on a successful search the
behavior is the pure `retrieve` above (which walks the same
`cands.take search_k` rows the search returned). -/
def retrieveE (cfg : RetrieverConfig) (cands : List (ℚ × Int))
    (md : List DocRecord) (query : PyStr) (top_k? : Option Nat)
    (similarity_threshold? : Option ℚ) :
    Except PyStr (List RetrievalResult) :=
  let top_k := top_k?.getD cfg.top_k
  let search_k := top_k * 3
  match index_search cands search_k with
  | Except.error e => Except.error e
  | Except.ok _ =>
    Except.ok (retrieve cfg cands md query top_k? similarity_threshold?)

/-- The dedup source of a raw index candidate. -/
def candSource (md : List DocRecord) (c : ℚ × Int) : PyStr :=
  docSource (docLookup md c.2)

/-- The fallback stop-word set of rag_metrics.py lines 29-68 (used when
NLTK is absent; the metric functions take the stop-word set as a
parameter exactly as the class reads `self.stop_words`). -/
def fallbackStopWords : List PyStr :=
  [pys "the", pys "a", pys "an", pys "and", pys "or", pys "but", pys "in",
   pys "on", pys "at", pys "to", pys "for", pys "of", pys "with", pys "by",
   pys "from", pys "as", pys "is", pys "was", pys "are", pys "been",
   pys "be", pys "have", pys "has", pys "had", pys "do", pys "does",
   pys "did", pys "will", pys "would", pys "should", pys "can", pys "could",
   pys "may", pys "might", pys "this", pys "that", pys "these", pys "those"]

/-- A regex `\w` word character, restricted to ASCII (the source's data is
ASCII): letters, digits, underscore. -/
def pyIsWordChar (c : Char) : Bool :=
  (48 ≤ c.toNat && c.toNat ≤ 57) || (65 ≤ c.toNat && c.toNat ≤ 90) ||
  (97 ≤ c.toNat && c.toNat ≤ 122) || c.toNat = 95

/-- Helper of `pyWordRuns`: maximal runs of word characters, `cur` in
reverse (this is `re.findall(r"\b\w+\b", text)`). -/
def pyWordRunsGo : PyStr → PyStr → List PyStr
  | [], cur => if cur.isEmpty then [] else [cur.reverse]
  | c :: cs, cur =>
    if pyIsWordChar c then pyWordRunsGo cs (c :: cur)
    else if cur.isEmpty then pyWordRunsGo cs []
    else cur.reverse :: pyWordRunsGo cs []

/-- Model of `re.findall(r"\b\w+\b", text)`: the maximal word-character runs. -/
def pyWordRuns (s : PyStr) : List PyStr := pyWordRunsGo s []

/-- Model of `RAGMetrics._extract_meaningful_words` — rag_metrics.py lines 160-171.
Python builds a set; the model keeps the deduplicated list. -/
def extract_meaningful_words (stop_words : List PyStr) (text : PyStr) :
    List PyStr :=
  ((pyWordRuns (pyLower text)).filter
    fun w => w.length > 3 ∧ w ∉ stop_words).dedup

/-- Helper of `split_into_sentences`: split at every `.`, `!` or `?`,
keeping empty pieces (the caller strips and drops them, so splitting at
single delimiters agrees with the source's split on `[.!?]+` runs). -/
def pySplitPunctGo : PyStr → PyStr → List PyStr
  | [], cur => [cur.reverse]
  | c :: cs, cur =>
    if c = '.' || c = '!' || c = '?' then
      cur.reverse :: pySplitPunctGo cs []
    else pySplitPunctGo cs (c :: cur)

/-- Model of `RAGMetrics._split_into_sentences` — rag_metrics.py lines 429-441:
`re.split(r"[.!?]+", text)`, each piece stripped, empties dropped. -/
def split_into_sentences (text : PyStr) : List PyStr :=
  ((pySplitPunctGo text []).map pyStrip).filter (· ≠ [])

/-- The per-score band re-mapping in `RAGMetrics._calculate_retrieval_score`
— rag_metrics.py lines 139-156. -/
def normalizeRetrievalBand (score : ℚ) : ℚ :=
  if score ≥ mkRat 90 100 then
    qadd (mkRat 93 100) (qmul (qsub score (mkRat 90 100)) (mkRat 1 2))
  else if score ≥ mkRat 85 100 then
    qadd (mkRat 88 100) (qsub score (mkRat 85 100))
  else if score ≥ mkRat 80 100 then
    qadd (mkRat 82 100) (qmul (qsub score (mkRat 80 100)) (mkRat 12 10))
  else if score ≥ mkRat 75 100 then
    qadd (mkRat 75 100) (qmul (qsub score (mkRat 75 100)) (mkRat 14 10))
  else if score ≥ mkRat 70 100 then
    qadd (mkRat 65 100) (qmul (qsub score (mkRat 70 100)) (mkRat 2 1))
  else qmul score (mkRat 9 10)

/-- Model of `RAGMetrics._calculate_retrieval_score` — rag_metrics.py lines 120-158:
0 for no documents, else the average of the band-normalized scores. -/
def calculate_retrieval_score (retrieved_docs : List RetrievalResult) : ℚ :=
  if retrieved_docs = [] then 0
  else
    let scores := retrieved_docs.map (·.score)
    let normalized_scores := scores.map normalizeRetrievalBand
    qdiv (qsum normalized_scores) (ratN normalized_scores.length)

/-- The "no information" phrases of `_calculate_faithfulness` —
rag_metrics.py lines 191-198. -/
def noInfoPhrasesFaith : List PyStr :=
  [pys "don" ++ apo ++ pys "t have enough information",
   pys "couldn" ++ apo ++ pys "t find any relevant information",
   pys "cannot answer",
   pys "no information available",
   pys "not found in",
   pys "i" ++ apo ++ pys "m sorry, i couldn" ++ apo ++ pys "t find"]

/-- One step of the per-sentence grounding accumulation —
rag_metrics.py lines 219-244.  The state is
`(grounded_count, weakly_grounded_count)`. -/
def faithfulnessStep (context_words : List PyStr) (stop_words : List PyStr)
    (acc : ℚ × Nat) (sentence : PyStr) : ℚ × Nat :=
  if (pySplitWs sentence).length < 5 then (qadd acc.1 1, acc.2)
  else
    let sentence_words := extract_meaningful_words stop_words sentence
    if sentence_words = [] then acc
    else
      let overlap := qdiv (ratN (sentence_words.filter
        (· ∈ context_words)).length) (ratN sentence_words.length)
      if overlap ≥ mkRat 55 100 then (qadd acc.1 1, acc.2)
      else if overlap ≥ mkRat 45 100 then (qadd acc.1 (mkRat 85 100), acc.2)
      else if overlap ≥ mkRat 35 100 then (qadd acc.1 (mkRat 65 100), acc.2)
      else if overlap ≥ mkRat 25 100 then
        (qadd acc.1 (mkRat 35 100), acc.2 + 1)
      else acc

/-- Model of `RAGMetrics._calculate_faithfulness` — rag_metrics.py lines 173-263. -/
def calculate_faithfulness (stop_words : List PyStr) (answer : PyStr)
    (retrieved_docs : List RetrievalResult) : ℚ :=
  if answer = [] ∨ retrieved_docs = [] then 0
  else
    let context := pyJoin (pys " ") (retrieved_docs.map (·.content))
    let answer_lower := pyLower answer
    if noInfoPhrasesFaith.any (fun p => pyContains answer_lower p) then
      if retrieved_docs = [] ∨
          calculate_retrieval_score retrieved_docs < mkRat 3 10 then 1
      else mkRat 8 10
    else
      let answer_sentences := split_into_sentences answer
      if answer_sentences = [] then mkRat 1 2
      else
        let context_words := extract_meaningful_words stop_words context
        let acc := answer_sentences.foldl
          (faithfulnessStep context_words stop_words) (0, 0)
        let total_sentences := answer_sentences.length
        let faithfulness_score :=
          if total_sentences > 0 then qdiv acc.1 (ratN total_sentences) else 0
        let weak_ratio :=
          if total_sentences > 0 then qdiv (ratN acc.2) (ratN total_sentences)
          else 0
        if weak_ratio > mkRat 25 100 then
          qmul faithfulness_score (qsub 1 (mkRat 15 100))
        else faithfulness_score

/-- Assoc-list model of the Python metrics dict (`dict.get(key, default)`). -/
def dictGet (metrics : List (PyStr × ℚ)) (k : PyStr) (default : ℚ) : ℚ :=
  match metrics.find? (fun p => p.1 = k) with
  | some p => p.2
  | none => default

/-- Model of `RAGMetrics._calculate_overall_score` — rag_metrics.py lines 406-427:
`sum(metrics.get(metric, 0) * weight)` over the fixed weight table. -/
def calculate_overall_score (metrics : List (PyStr × ℚ)) : ℚ :=
  let weights := [(pys "retrieval_score", mkRat 30 100),
                  (pys "faithfulness", mkRat 25 100),
                  (pys "relevance", mkRat 25 100),
                  (pys "completeness", mkRat 20 100)]
  qsum (weights.map fun w => qmul (dictGet metrics w.1 0) w.2)

/-- A concrete answer that contains the "no information" phrase. -/
def noInfoAnswerEx : PyStr :=
  pys "I don" ++ apo ++
    pys "t have enough information in the knowledge base to answer this."

/-- A concrete one-document retrieved set whose retrieval score is exactly
0.2 (raw score 2/9 lies below the 0.70 band, so it is scaled by 0.9). -/
def docsScore02Ex : List RetrievalResult :=
  [{ content := pys "policy text", metadata := {}, score := mkRat 2 9 }]

/-- Python `f"{score:.2f}"` on the exact-rational score model: round to
two decimals (ties to even, as float formatting does), render with sign,
integer part and two zero-padded decimals. -/
def fmt2f (q : ℚ) : PyStr :=
  let scaled := qmul q (mkRat 100 1)
  let fl := Rat.floor scaled
  let frac := qsub scaled (mkRat fl 1)
  let n : Int :=
    if frac > mkRat 1 2 then fl + 1
    else if frac < mkRat 1 2 then fl
    else if fl % 2 = 0 then fl else fl + 1
  let a := n.natAbs
  let sign : PyStr := if q < 0 then pys "-" else []
  let dec := a % 100
  sign ++ pyNat (a / 100) ++ pys "." ++
    (if dec < 10 then pys "0" ++ pyNat dec else pyNat dec)

/-- One chat message dict (`{"role": ..., "content": ...}`), read only
through `dict.get`. -/
structure ChatMessage where
  role : Option PyStr := none
  content : Option PyStr := none
deriving DecidableEq

/-- Model of `format_context` — prompts.py lines 62-83: one bracketed source header
plus content per document, joined by newlines. -/
def format_context (retrieved_docs : List RetrievalResult) : PyStr :=
  pyJoin (pys "\n") (retrieved_docs.enum.map fun p =>
    pys "[Source " ++ pyNat (p.1 + 1) ++ pys ": " ++
      p.2.metadata.filename.getD (pys "Unknown") ++ pys " (relevance: " ++
      fmt2f p.2.score ++ pys ")]\n" ++ p.2.content ++ pys "\n")

/-- Model of `format_chat_history` — prompts.py lines 86-105: fixed marker when
empty, else the last 5 messages as `Role: content` lines. -/
def format_chat_history (chat_history : List ChatMessage) : PyStr :=
  if chat_history = [] then pys "No previous conversation."
  else
    pyJoin (pys "\n")
      ((chat_history.drop (chat_history.length - 5)).map fun m =>
        pyCapitalize (m.role.getD (pys "user")) ++ pys ": " ++
          m.content.getD [])

/-- Model of `QUERY_PROMPT_TEMPLATE.format(context=..., question=...)` —
prompts.py lines 23-34. -/
def QUERY_PROMPT_TEMPLATE_fmt (context question : PyStr) : PyStr :=
  pys "Context information is below:\n---------------------\n" ++ context ++
  pys "\n---------------------\n\nGiven the context information above, please answer the following question THOROUGHLY and COMPLETELY.\n\nDO NOT include source filenames in your answer - sources will be displayed separately.\n\nQuestion: " ++
  question ++ pys "\n\nAnswer: "

/-- Model of `CHAT_PROMPT_TEMPLATE.format(context=..., chat_history=..., question=...)`
— prompts.py lines 36-49. -/
def CHAT_PROMPT_TEMPLATE_fmt (context chat_history question : PyStr) :
    PyStr :=
  pys "Context information is below:\n---------------------\n" ++ context ++
  pys "\n---------------------\n\nChat History:\n" ++ chat_history ++
  pys "\n\nGiven the context information and chat history above, please answer the following question.\nIf you cannot answer based on the context, say so clearly.\n\nQuestion: " ++
  question ++ pys "\n\nAnswer: "

/-- Model of `PromptBuilder.build_prompt` — prompt_builder.py lines 27-65: format
the context, truncate it at `max_context_length` characters with an
explicit marker when too long, then fill the chat template when a
non-empty chat history is given (`if chat_history:`), else the query
template. -/
def build_prompt (max_context_length : Nat) (question : PyStr)
    (retrieved_docs : List RetrievalResult)
    (chat_history : Option (List ChatMessage)) : PyStr :=
  let context := format_context retrieved_docs
  let context :=
    if context.length > max_context_length then
      context.take max_context_length ++ pys "\n...(truncated)"
    else context
  match chat_history with
  | some (m :: ms) =>
    CHAT_PROMPT_TEMPLATE_fmt context (format_chat_history (m :: ms)) question
  | _ => QUERY_PROMPT_TEMPLATE_fmt context question

/-- A concrete retrieved set whose formatted context has more than 10
characters. -/
def truncDocsEx : List RetrievalResult :=
  [{ content := pys "GitLab is an all-remote company with a public handbook.",
     metadata := {}, score := mkRat 1 2 }]

/-- The text cleaning `text.replace("\n", " ").strip()` used by both
`embed_text` (line 33) and `embed_batch` (line 68). -/
def cleanText (text : PyStr) : PyStr := pyStrip (pyReplaceNlSpace text)

/-- Model of `Embedder.embed_text` — embedder.py lines 21-48: clean the text,
return the zero vector of the configured dimension when nothing is left,
else call the embedding service. -/
def embed_text (dimension : Nat) (service : PyStr → List ℚ)
    (text : PyStr) : List ℚ :=
  let text := cleanText text
  if text = [] then List.replicate dimension 0
  else service text

/-- The batch slices of `range(0, len(texts), batch_size)` —
embedder.py lines 64-65.  The fuel argument bounds the recursion by the
list length (for `batch_size = 0` Python's `range` raises `ValueError`;
the model returns no batches). -/
def chunkListGo (batch_size : Nat) : Nat → List PyStr → List (List PyStr)
  | 0, _ => []
  | _, [] => []
  | fuel + 1, l =>
    l.take batch_size :: chunkListGo batch_size fuel (l.drop batch_size)

/-- The batch slices of `embed_batch`. -/
def chunkList (batch_size : Nat) (texts : List PyStr) : List (List PyStr) :=
  chunkListGo batch_size texts.length texts

/-- The cleaned batches `embed_batch` sends to the embedding service —
embedder.py lines 64-74: slice first, then clean each text of the slice.
A text that cleans to the empty string is NOT replaced by a zero vector;
it is sent to the service as-is. -/
def embed_batch_requests (batch_size : Nat) (texts : List PyStr) :
    List (List PyStr) :=
  (chunkList batch_size texts).map fun batch => batch.map cleanText

/-- Model of `Embedder.embed_batch` — embedder.py lines 50-84: call the service on
every cleaned batch and concatenate the returned vectors. -/
def embed_batch (service : List PyStr → List (List ℚ)) (batch_size : Nat)
    (texts : List PyStr) : List (List ℚ) :=
  ((embed_batch_requests batch_size texts).map service).flatten

/-- The embedding service used in the C8 counterexample: it answers every
request with the constant vector `[1, 1, 1]`. -/
def constOneService : List PyStr → List (List ℚ) :=
  fun batch => batch.map fun _ => [1, 1, 1]

/-- The greeting patterns of `RAGPipeline.__init__` — rag_pipeline.py
lines 27-40. -/
def greeting_patterns : List PyStr :=
  [pys "hi", pys "hello", pys "hey", pys "greetings", pys "good morning",
   pys "good afternoon", pys "good evening", pys "howdy",
   pys "what" ++ apo ++ pys "s up", pys "whats up", pys "sup", pys "yo"]

/-- The introduction patterns — rag_pipeline.py lines 42-53. -/
def intro_patterns : List PyStr :=
  [pys "who are you", pys "what are you", pys "what can you do",
   pys "what do you do", pys "tell me about yourself",
   pys "introduce yourself", pys "your capabilities", pys "help me",
   pys "what is this", pys "how does this work"]

/-- Model of `RAGPipeline._is_greeting` — rag_pipeline.py lines 57-64: exact match
against or prefix of a greeting pattern, on the lower-cased stripped
question. -/
def is_greeting (question : PyStr) : Bool :=
  let question_lower := pyStrip (pyLower question)
  greeting_patterns.contains question_lower ||
    greeting_patterns.any fun g => pyBeginsWith g question_lower

/-- Model of `RAGPipeline._is_intro_request` — rag_pipeline.py lines 66-69. -/
def is_intro_request (question : PyStr) : Bool :=
  let question_lower := pyStrip (pyLower question)
  intro_patterns.any fun pattern => pyContains question_lower pattern

/-- The wave emoji as the source file stores it: the file holds the
mojibake code points U+00F0 U+0178 U+2018 U+2039 (the UTF-8 bytes of the
emoji re-decoded as Latin-1), reproduced here byte-for-byte. -/
def waveEmoji : PyStr :=
  [Char.ofNat 240, Char.ofNat 376, Char.ofNat 8216, Char.ofNat 8249]

/-- The bullet as stored (mojibake: U+00E2 U+20AC U+00A2). -/
def bulletChar : PyStr := [Char.ofNat 226, Char.ofNat 8364, Char.ofNat 162]

/-- The fox emoji as stored (mojibake: U+00F0 U+0178 U+00A6 U+0160). -/
def foxEmoji : PyStr :=
  [Char.ofNat 240, Char.ofNat 376, Char.ofNat 166, Char.ofNat 352]

/-- Model of `RAGPipeline._generate_greeting_response` — rag_pipeline.py lines
71-83 (a triple-quoted literal whose continuation lines carry 16 spaces
of indentation). -/
def greeting_response : PyStr :=
  pys "Hello! " ++ waveEmoji ++ pys " I" ++ apo ++
  pys "m the GitLab Knowledge Q&A Assistant.\n\n                I can help you find information about:\n                " ++
  bulletChar ++ pys " GitLab" ++ apo ++
  pys "s mission, values, and culture\n                " ++
  bulletChar ++ pys " Company policies and procedures\n                " ++
  bulletChar ++ pys " Time off, leave types, and benefits\n                " ++
  bulletChar ++ pys " Remote work practices\n                " ++
  bulletChar ++ pys " Training and professional development\n                " ++
  bulletChar ++
  pys " And much more from the GitLab handbook!\n\n                What would you like to know about GitLab today?"

/-- Model of `RAGPipeline._generate_intro_response` — rag_pipeline.py lines
85-106. -/
def intro_response : PyStr :=
  pys "I" ++ apo ++ pys "m an AI assistant specialized in GitLab" ++ apo ++
  pys "s internal knowledge base! " ++ foxEmoji ++
  pys "\n\n                **What I can do:**\n                " ++
  bulletChar ++
  pys " Answer questions about GitLab policies, procedures, and culture\n                " ++
  bulletChar ++
  pys " Explain company values and operating principles\n                " ++
  bulletChar ++
  pys " Guide you through HR processes (PTO, benefits, etc.)\n                " ++
  bulletChar ++
  pys " Share information about remote work best practices\n                " ++
  bulletChar ++
  pys " Provide training and development resources\n\n                **How to use me:**\n                " ++
  bulletChar ++
  pys " Ask specific questions like \"How do I request time off?\"\n                " ++
  bulletChar ++
  pys " Inquire about policies like \"What is GitLab" ++ apo ++
  pys "s mission?\"\n                " ++
  bulletChar ++
  pys " Seek guidance on processes like \"How does code review work?\"\n\n                **What I can" ++
  apo ++ pys "t do:**\n                " ++
  bulletChar ++
  pys " Answer questions outside GitLab" ++ apo ++
  pys "s knowledge base\n                " ++
  bulletChar ++
  pys " Provide personal advice or opinions\n                " ++
  bulletChar ++
  pys " Access external information or real-time data\n\n                Try asking me something about GitLab! For example: \"What is GitLab" ++
  apo ++ pys "s approach to remote work?\" "

/-- The no-information answer of `RAGPipeline.query` — rag_pipeline.py
lines 157 and 170. -/
def no_info_answer : PyStr :=
  pys "I don" ++ apo ++
  pys "t have enough information in the knowledge base to answer this question. Could you try rephrasing or ask something else about GitLab?"

/-- The single apology fragment `stream_query` yields when retrieval is
empty — rag_pipeline.py line 277. -/
def stream_apology : PyStr :=
  pys "I" ++ apo ++ pys "m sorry, I couldn" ++ apo ++
  pys "t find any relevant information to answer your question."

/-- One entry of the `sources` list `RAGPipeline._extract_sources`
builds — rag_pipeline.py lines 241-248. -/
structure SourceInfo where
  filename : PyStr
  source : PyStr
  file_type : PyStr
  relevance_score : ℚ
deriving DecidableEq

/-- The dedup-by-filename loop of `_extract_sources` — rag_pipeline.py
lines 233-249. -/
def extract_sources_go : List RetrievalResult → List PyStr → List SourceInfo
  | [], _seen => []
  | doc :: rest, seen =>
    let source_id := doc.metadata.filename.getD (pys "Unknown")
    if source_id ∈ seen then extract_sources_go rest seen
    else
      { filename := doc.metadata.filename.getD (pys "Unknown")
        source := doc.metadata.source.getD []
        file_type := doc.metadata.file_type.getD []
        relevance_score := doc.score } ::
      extract_sources_go rest (source_id :: seen)

/-- Model of `RAGPipeline._extract_sources` — rag_pipeline.py lines 223-251. -/
def extract_sources (retrieved_docs : List RetrievalResult) :
    List SourceInfo :=
  extract_sources_go retrieved_docs []

/-- The dict `RAGPipeline.query` returns.  `is_greeting`/`is_intro` are
keys only the corresponding branches add; absence is modelled as
`false`. -/
structure QueryResponse where
  answer : PyStr
  sources : List SourceInfo
  retrieved_docs : List RetrievalResult
  model : PyStr
  is_greeting : Bool := false
  is_intro : Bool := false
deriving DecidableEq

/-- The pipeline's collaborators and configuration, as oracles: the
retriever call (which may raise), the blocking chat completion (already
including the configured system prompt, temperature and token budget),
and the streaming completion, returning the `delta.content` of each
arriving chunk (`none` models a `None` delta) plus an optional mid-stream
exception. -/
structure PipelineEnv where
  retrieveFn : PyStr → Option Nat → Except PyStr (List RetrievalResult)
  llmComplete : PyStr → Except PyStr PyStr
  llmStream : PyStr → List (Option PyStr) × Option PyStr
  model : PyStr
  max_context_length : Nat
  edge_case_min_score : ℚ

/-- Model of `RAGPipeline.query` — rag_pipeline.py lines 108-221.  Greeting and
introduction short-circuit; empty retrieval and the best-score recheck
return the canned no-info answer; otherwise the prompt is built, the
model called, sources extracted.  The `except` block re-raises, so a
raised exception propagates to the caller (`Except.error`).  The
faithfulness scan (lines 205-208) only logs and is not part of the
value. -/
def queryFn (env : PipelineEnv) (question : PyStr)
    (chat_history : Option (List ChatMessage)) (top_k? : Option Nat) :
    Except PyStr QueryResponse :=
  if is_greeting question then
    .ok { answer := greeting_response, sources := [], retrieved_docs := [],
          model := env.model, is_greeting := true }
  else if is_intro_request question then
    .ok { answer := intro_response, sources := [], retrieved_docs := [],
          model := env.model, is_intro := true }
  else
    match env.retrieveFn question top_k? with
    | .error e => .error e
    | .ok [] =>
      .ok { answer := no_info_answer, sources := [], retrieved_docs := [],
            model := env.model }
    | .ok (d :: ds) =>
      let best_score := (ds.map (·.score)).foldl max d.score
      if best_score < env.edge_case_min_score then
        .ok { answer := no_info_answer, sources := [], retrieved_docs := [],
              model := env.model }
      else
        let prompt := build_prompt env.max_context_length question (d :: ds)
          chat_history
        match env.llmComplete prompt with
        | .error e => .error e
        | .ok answer =>
          .ok { answer := answer, sources := extract_sources (d :: ds),
                retrieved_docs := d :: ds, model := env.model }

/-- The generation path of `stream_query` — rag_pipeline.py lines
280-304: build the prompt, stream the completion, yield every truthy
`delta.content` (skipping `None` and `""`); a mid-stream exception is
caught by the outer handler and yields `"Error: " + str(e)` after the
fragments already yielded. -/
def streamGenOut (env : PipelineEnv) (question : PyStr)
    (chat_history : Option (List ChatMessage))
    (docs : List RetrievalResult) : List PyStr :=
  let prompt := build_prompt env.max_context_length question docs
    chat_history
  let s := env.llmStream prompt
  let yielded := s.1.filterMap fun c? =>
    match c? with
    | none => none
    | some c => if c = [] then none else some c
  match s.2 with
  | none => yielded
  | some e => yielded ++ [pys "Error: " ++ e]

/-- Model of `RAGPipeline.stream_query` — rag_pipeline.py lines 253-308.  There is
no intent classification and no best-score recheck: retrieval runs first;
an empty result yields the single apology fragment; an exception yields
`"Error: " + str(e)`. -/
def streamQuery (env : PipelineEnv) (question : PyStr)
    (chat_history : Option (List ChatMessage)) (top_k? : Option Nat) :
    List PyStr :=
  match env.retrieveFn question top_k? with
  | .error e => [pys "Error: " ++ e]
  | .ok [] => [stream_apology]
  | .ok (d :: ds) => streamGenOut env question chat_history (d :: ds)

/-- The environment of the C9 concrete instance: the retriever raises an
exception whose text is `"boom"`. -/
def envBoom : PipelineEnv :=
  { retrieveFn := fun _ _ => .error (pys "boom")
    llmComplete := fun _ => .ok (pys "an answer")
    llmStream := fun _ => ([], none)
    model := pys "gpt-4"
    max_context_length := 5000
    edge_case_min_score := mkRat 8 10 }

/-- The environment of the C10 concrete instance: retrieval finds
nothing. -/
def envEmpty : PipelineEnv :=
  { retrieveFn := fun _ _ => .ok []
    llmComplete := fun _ => .ok (pys "an answer")
    llmStream := fun _ => ([], none)
    model := pys "gpt-4"
    max_context_length := 5000
    edge_case_min_score := mkRat 8 10 }

theorem ratN_eq (n : Nat) : ratN n = (n : ℚ) := by
  rw [ratN, Rat.mkRat_eq_div]
  simp

theorem qadd_eq (a b : ℚ) : qadd a b = a + b := by
  have ha : ((a.den : ℚ)) ≠ 0 := by exact_mod_cast a.den_nz
  have hb : ((b.den : ℚ)) ≠ 0 := by exact_mod_cast b.den_nz
  rw [qadd, Rat.mkRat_eq_div]
  conv_rhs => rw [← Rat.num_div_den a, ← Rat.num_div_den b]
  push_cast
  field_simp

theorem qneg_eq (a : ℚ) : qneg a = -a := by
  rw [qneg, Rat.mkRat_eq_div]
  push_cast
  rw [neg_div, Rat.num_div_den]

theorem qsub_eq (a b : ℚ) : qsub a b = a - b := by
  rw [qsub, qadd_eq, qneg_eq, sub_eq_add_neg]

theorem qmul_eq (a b : ℚ) : qmul a b = a * b := by
  have ha : ((a.den : ℚ)) ≠ 0 := by exact_mod_cast a.den_nz
  have hb : ((b.den : ℚ)) ≠ 0 := by exact_mod_cast b.den_nz
  rw [qmul, Rat.mkRat_eq_div]
  conv_rhs => rw [← Rat.num_div_den a, ← Rat.num_div_den b]
  push_cast
  field_simp

theorem qdiv_eq (a b : ℚ) : qdiv a b = a / b := by
  have ha : ((a.den : ℚ)) ≠ 0 := by exact_mod_cast a.den_nz
  have hbd : ((b.den : ℚ)) ≠ 0 := by exact_mod_cast b.den_nz
  rcases lt_trichotomy b.num 0 with h | h | h
  · have hb : (b.num : ℚ) ≠ 0 := by exact_mod_cast h.ne
    rw [qdiv, if_pos h, Rat.mkRat_eq_div]
    have htn : (((-b.num).toNat : Nat) : ℚ) = -(b.num : ℚ) := by
      exact_mod_cast Int.toNat_of_nonneg (by omega : (0:Int) ≤ -b.num)
    push_cast [htn]
    conv_rhs => rw [← Rat.num_div_den a, ← Rat.num_div_den b]
    rw [div_div_div_comm]
    field_simp
    ring_nf
    exact Or.inl trivial
  · have hb0 : b = 0 := Rat.num_eq_zero.mp h
    rw [qdiv, if_neg (by omega), h, hb0]
    simp [Rat.mkRat_eq_div]
  · have hb : (b.num : ℚ) ≠ 0 := by exact_mod_cast h.ne'
    rw [qdiv, if_neg (by omega), Rat.mkRat_eq_div]
    have htn : ((b.num.toNat : Nat) : ℚ) = (b.num : ℚ) := by
      exact_mod_cast Int.toNat_of_nonneg (by omega : (0:Int) ≤ b.num)
    push_cast [htn]
    conv_rhs => rw [← Rat.num_div_den a, ← Rat.num_div_den b]
    rw [div_div_div_comm]
    field_simp
    exact Or.inl (mul_comm _ _)

theorem qsum_aux (l : List ℚ) (a : ℚ) : l.foldl qadd a = a + l.sum := by
  induction l generalizing a with
  | nil => simp [qsum, List.foldl]
  | cons x xs ih => simp [List.foldl, qadd_eq, ih, add_assoc]

theorem qsum_eq (l : List ℚ) : qsum l = l.sum := by
  simp [qsum, qsum_aux]

theorem clamp01_nonneg (s : ℚ) : 0 ≤ clamp01 s :=
  le_min (le_max_right s 0) zero_le_one

theorem clamp01_le_one (s : ℚ) : clamp01 s ≤ 1 := min_le_right _ _

/-- The loop's running `max_score` stays below `g` when it starts below `g`
and every candidate's clamped score is below `g`. -/
theorem retrieveLoop_max_lt (top_k : Nat) (threshold : ℚ) (md : List DocRecord)
    (g : ℚ) :
    ∀ (cands : List (ℚ × Int)) (seen : List PyStr) (ms : ℚ)
      (res : List RetrievalResult), ms < g → (∀ c ∈ cands, clamp01 c.1 < g) →
      (retrieveLoop top_k threshold md cands seen ms res).2 < g
  | [], _seen, _ms, _res, hms, _hc => by
    simpa [retrieveLoop] using hms
  | (d, i) :: rest, seen, ms, res, hms, hc => by
    have hd : clamp01 d < g := hc (d, i) (List.mem_cons_self _ _)
    have hrest : ∀ c ∈ rest, clamp01 c.1 < g := fun c hcm =>
      hc c (List.mem_cons_of_mem _ hcm)
    have hms' : (if clamp01 d > ms then clamp01 d else ms) < g := by
      split
      · exact hd
      · exact hms
    by_cases hi : i = -1
    · simpa [retrieveLoop, hi] using hms
    · simp only [retrieveLoop, if_neg hi]
      by_cases hseen : docSource (docLookup md i) ∈ seen
      · simp only [if_pos hseen]
        exact retrieveLoop_max_lt top_k threshold md g rest seen _ res hms' hrest
      · simp only [if_neg hseen]
        by_cases hlen :
            (if clamp01 d ≥ threshold then res ++ [newResult md i (clamp01 d)]
            else res).length ≥ top_k
        · simpa [hlen] using hms'
        · simp only [if_neg hlen]
          exact retrieveLoop_max_lt top_k threshold md g rest _ _ _ hms' hrest

/-- C1: for every retrieval call, if every candidate the index search
returns has clamped similarity strictly below the configured
`edge_case_min_score`, `Retriever.retrieve` returns the empty list,
regardless of how many candidates pass `similarity_threshold`
(retriever.py lines 84-139). -/
theorem retrieve_confidence_gate (cfg : RetrieverConfig)
    (cands : List (ℚ × Int)) (md : List DocRecord) (query : PyStr)
    (top_k? : Option Nat) (similarity_threshold? : Option ℚ)
    (h : ∀ c ∈ cands.take ((top_k?.getD cfg.top_k) * 3),
      clamp01 c.1 < cfg.edge_case_min_score) :
    retrieve cfg cands md query top_k? similarity_threshold? = [] := by
  simp only [retrieve]
  rcases htaken : cands.take ((top_k?.getD cfg.top_k) * 3) with _ | ⟨c0, rest⟩
  · simp only [retrieveLoop]
    by_cases hg : (0:ℚ) < cfg.edge_case_min_score
    · rw [if_pos hg]
    · rw [if_neg hg]
      split
      · rfl
      · rfl
  · have h0 : clamp01 c0.1 < cfg.edge_case_min_score := by
      refine h c0 ?_
      rw [htaken]
      exact List.mem_cons_self _ _
    have hg : (0:ℚ) < cfg.edge_case_min_score :=
      lt_of_le_of_lt (clamp01_nonneg c0.1) h0
    have hmax := retrieveLoop_max_lt (top_k?.getD cfg.top_k)
      (similarity_threshold?.getD cfg.similarity_threshold) md
      cfg.edge_case_min_score (cands.take ((top_k?.getD cfg.top_k) * 3)) [] 0 []
      hg h
    rw [htaken] at hmax
    rw [if_pos hmax]

/-- Witness for C1 at a concrete input: one candidate with clamped score
0.6 against a gate of 0.8 yields the empty result list. -/
theorem retrieve_confidence_gate_witness :
    retrieve ⟨5, mkRat 7 10, false, mkRat 8 10⟩ [(mkRat 6 10, 0)]
      [ { content := some (pys "a"),
          metadata := some { source := some (pys "s1") } } ]
      (pys "q") none none = [] :=
  retrieve_confidence_gate ⟨5, mkRat 7 10, false, mkRat 8 10⟩ [(mkRat 6 10, 0)]
    [ { content := some (pys "a"),
        metadata := some { source := some (pys "s1") } } ]
    (pys "q") none none (by decide)

/-- The loop preserves the dedup invariant: if every accumulated result's
source is already in `seen_sources` and the accumulated results have
pairwise distinct sources, so do the final results. -/
theorem retrieveLoop_pairwise (top_k : Nat) (threshold : ℚ)
    (md : List DocRecord) :
    ∀ (cands : List (ℚ × Int)) (seen : List PyStr) (ms : ℚ)
      (res : List RetrievalResult),
      (∀ r ∈ res, resSource r ∈ seen) →
      res.Pairwise (fun a b => resSource a ≠ resSource b) →
      (retrieveLoop top_k threshold md cands seen ms res).1.Pairwise
        (fun a b => resSource a ≠ resSource b)
  | [], _seen, _ms, _res, _hin, hpw => by simpa [retrieveLoop] using hpw
  | (d, i) :: rest, seen, ms, res, hin, hpw => by
    by_cases hi : i = -1
    · simpa [retrieveLoop, hi] using hpw
    · simp only [retrieveLoop, if_neg hi]
      by_cases hseen : docSource (docLookup md i) ∈ seen
      · simp only [if_pos hseen]
        exact retrieveLoop_pairwise top_k threshold md rest seen _ res hin hpw
      · simp only [if_neg hseen]
        have hnew : resSource (newResult md i (clamp01 d))
            = docSource (docLookup md i) := rfl
        have hpw' :
            (if clamp01 d ≥ threshold then res ++ [newResult md i (clamp01 d)]
            else res).Pairwise (fun a b => resSource a ≠ resSource b) := by
          split
          · refine List.pairwise_append.mpr ⟨hpw, List.pairwise_singleton _ _, ?_⟩
            intro a ha b hb
            rw [List.mem_singleton] at hb
            subst hb
            rw [hnew]
            intro hcontra
            exact hseen (hcontra ▸ hin a ha)
          · exact hpw
        have hin' : ∀ r ∈
            (if clamp01 d ≥ threshold then res ++ [newResult md i (clamp01 d)]
            else res), resSource r ∈ docSource (docLookup md i) :: seen := by
          intro r hr
          split at hr
          · rcases List.mem_append.mp hr with hr | hr
            · exact List.mem_cons_of_mem _ (hin r hr)
            · rw [List.mem_singleton] at hr
              subst hr
              rw [hnew]
              exact List.mem_cons_self _ _
          · exact List.mem_cons_of_mem _ (hin r hr)
        by_cases hlen :
            (if clamp01 d ≥ threshold then res ++ [newResult md i (clamp01 d)]
            else res).length ≥ top_k
        · simpa [hlen] using hpw'
        · simp only [if_neg hlen]
          exact retrieveLoop_pairwise top_k threshold md rest _ _ _ hin' hpw'

/-- Where the loop's results come from: each result either was already
accumulated, or is the `newResult` of a candidate whose source is fresh
and does not occur at any earlier (necessarily processed, non-`-1`)
candidate. -/
theorem retrieveLoop_origin (top_k : Nat) (threshold : ℚ)
    (md : List DocRecord) :
    ∀ (cands : List (ℚ × Int)) (seen : List PyStr) (ms : ℚ)
      (res : List RetrievalResult),
      ∀ r ∈ (retrieveLoop top_k threshold md cands seen ms res).1,
        r ∈ res ∨
        (resSource r ∉ seen ∧ ∃ pre c post, cands = pre ++ c :: post ∧
          c.2 ≠ -1 ∧ r = newResult md c.2 (clamp01 c.1) ∧
          ∀ c' ∈ pre, c'.2 ≠ -1 ∧ candSource md c' ≠ resSource r)
  | [], _seen, _ms, res, r, hr => by
    left
    simpa [retrieveLoop] using hr
  | (d, i) :: rest, seen, ms, res, r, hr => by
    by_cases hi : i = -1
    · left
      simpa [retrieveLoop, hi] using hr
    · simp only [retrieveLoop, if_neg hi] at hr
      by_cases hseen : docSource (docLookup md i) ∈ seen
      · simp only [if_pos hseen] at hr
        rcases retrieveLoop_origin top_k threshold md rest seen _ res r hr with
          hmem | ⟨hnot, pre, c, post, hsplit, hc1, hc2, hpre⟩
        · exact Or.inl hmem
        · refine Or.inr ⟨hnot, (d, i) :: pre, c, post, by simp [hsplit], hc1, hc2, ?_⟩
          intro c' hc'
          rcases List.mem_cons.mp hc' with hc' | hc'
          · subst hc'
            refine ⟨hi, ?_⟩
            intro hcontra
            rw [candSource] at hcontra
            exact hnot (hcontra ▸ hseen)
          · exact hpre c' hc'
      · simp only [if_neg hseen] at hr
        have hfresh : resSource (newResult md i (clamp01 d)) ∉ seen := by
          intro hcontra
          exact hseen hcontra
        by_cases hlen :
            (if clamp01 d ≥ threshold then res ++ [newResult md i (clamp01 d)]
            else res).length ≥ top_k
        · simp only [if_pos hlen] at hr
          split at hr
          · rcases List.mem_append.mp hr with hr | hr
            · exact Or.inl hr
            · rw [List.mem_singleton] at hr
              subst hr
              exact Or.inr ⟨hfresh, [], (d, i), rest, rfl, hi, rfl,
                by intro c' hc'; simp at hc'⟩
          · exact Or.inl hr
        · simp only [if_neg hlen] at hr
          rcases retrieveLoop_origin top_k threshold md rest _ _ _ r hr with
            hmem | ⟨hnot, pre, c, post, hsplit, hc1, hc2, hpre⟩
          · split at hmem
            · rcases List.mem_append.mp hmem with hmem | hmem
              · exact Or.inl hmem
              · rw [List.mem_singleton] at hmem
                subst hmem
                exact Or.inr ⟨hfresh, [], (d, i), rest, rfl, hi, rfl,
                  by intro c' hc'; simp at hc'⟩
            · exact Or.inl hmem
          · have hnotseen : resSource r ∉ seen := fun hx =>
              hnot (List.mem_cons_of_mem _ hx)
            have hnothead : resSource r ≠ docSource (docLookup md i) := by
              intro hcontra
              exact hnot (hcontra ▸ List.mem_cons_self _ _)
            refine Or.inr ⟨hnotseen, (d, i) :: pre, c, post, by simp [hsplit],
              hc1, hc2, ?_⟩
            intro c' hc'
            rcases List.mem_cons.mp hc' with hc' | hc'
            · subst hc'
              exact ⟨hi, fun hx => hnothead (by rw [← hx, candSource])⟩
            · exact hpre c' hc'

theorem resSource_rerankBoost (ts : List PyStr) (r : RetrievalResult) :
    resSource (rerankBoost ts r) = resSource r := rfl

theorem mem_rerank_results (query : PyStr) (res : List RetrievalResult)
    (r' : RetrievalResult) :
    r' ∈ rerank_results query res ↔
      ∃ r ∈ res, r' = rerankBoost ((pySplitWs (pyLower query)).dedup) r := by
  unfold rerank_results
  rw [(List.perm_insertionSort _ _).mem_iff, List.mem_map]
  constructor
  · rintro ⟨a, ha, rfl⟩
    exact ⟨a, ha, rfl⟩
  · rintro ⟨a, ha, rfl⟩
    exact ⟨a, ha, rfl⟩

theorem rerank_results_pairwise (query : PyStr) (res : List RetrievalResult)
    (h : res.Pairwise fun a b => resSource a ≠ resSource b) :
    (rerank_results query res).Pairwise
      (fun a b => resSource a ≠ resSource b) := by
  unfold rerank_results
  refine ((List.perm_insertionSort _ _).pairwise_iff ?_).mpr ?_
  · intro x y hxy
    exact hxy.symm
  · rw [List.pairwise_map]
    simpa [resSource_rerankBoost] using h

/-- C2: no two entries of a `Retriever.retrieve` result share the same
`source` metadata value, and every returned entry descends from the first
candidate (in the order the index returned them) bearing its source: all
earlier candidates were processed (none is the `-1` sentinel) and carry a
different source (retriever.py lines 113-116). -/
theorem retrieve_source_dedup (cfg : RetrieverConfig)
    (cands : List (ℚ × Int)) (md : List DocRecord) (query : PyStr)
    (top_k? : Option Nat) (similarity_threshold? : Option ℚ) :
    (retrieve cfg cands md query top_k? similarity_threshold?).Pairwise
      (fun a b => resSource a ≠ resSource b) ∧
    ∀ r ∈ retrieve cfg cands md query top_k? similarity_threshold?,
      ∃ pre c post,
        cands.take ((top_k?.getD cfg.top_k) * 3) = pre ++ c :: post ∧
        c.2 ≠ -1 ∧ r.content = (docLookup md c.2).content.getD [] ∧
        r.metadata = (docLookup md c.2).metadata.getD {} ∧
        ∀ c' ∈ pre, c'.2 ≠ -1 ∧ candSource md c' ≠ resSource r := by
  constructor
  · simp only [retrieve]
    split
    · exact List.Pairwise.nil
    · split
      · exact rerank_results_pairwise _ _
          (retrieveLoop_pairwise _ _ md _ [] 0 []
            (by intro s hs; cases hs) List.Pairwise.nil)
      · exact retrieveLoop_pairwise _ _ md _ [] 0 []
          (by intro s hs; cases hs) List.Pairwise.nil
  · intro r hr
    simp only [retrieve] at hr
    split at hr
    · cases hr
    · have key : ∀ s ∈ (retrieveLoop (top_k?.getD cfg.top_k)
          (similarity_threshold?.getD cfg.similarity_threshold) md
          (cands.take ((top_k?.getD cfg.top_k) * 3)) [] 0 []).1,
          ∃ pre c post,
            cands.take ((top_k?.getD cfg.top_k) * 3) = pre ++ c :: post ∧
            c.2 ≠ -1 ∧ s.content = (docLookup md c.2).content.getD [] ∧
            s.metadata = (docLookup md c.2).metadata.getD {} ∧
            ∀ c' ∈ pre, c'.2 ≠ -1 ∧ candSource md c' ≠ resSource s := by
        intro s hs
        rcases retrieveLoop_origin (top_k?.getD cfg.top_k)
            (similarity_threshold?.getD cfg.similarity_threshold) md
            (cands.take ((top_k?.getD cfg.top_k) * 3)) [] 0 [] s hs with
          hmem | ⟨_hnot, pre, c, post, hsplit, hc1, hc2, hpre⟩
        · cases hmem
        · subst hc2
          exact ⟨pre, c, post, hsplit, hc1, rfl, rfl, hpre⟩
      split at hr
      · rcases (mem_rerank_results _ _ _).mp hr with ⟨s, hs, rfl⟩
        rcases key s hs with ⟨pre, c, post, h1, h2, h3, h4, h5⟩
        exact ⟨pre, c, post, h1, h2, h3, h4, h5⟩
      · exact key r hr

theorem mkRat_nonneg_of_nonneg (a : Int) (b : Nat) (h : 0 ≤ a) :
    (0:ℚ) ≤ mkRat a b := by
  rw [Rat.mkRat_eq_div]
  positivity

theorem rerankBoost_score_bounds (ts : List PyStr) (r : RetrievalResult)
    (h : 0 ≤ r.score) :
    0 ≤ (rerankBoost ts r).score ∧ (rerankBoost ts r).score ≤ 1 := by
  have hboost : (0:ℚ) ≤ min
      (qmul (ratN ((ts.filter fun t => pyContains (pyLower r.content) t).length))
        (mkRat 5 100)) (mkRat 15 100) := by
    refine le_min ?_ (mkRat_nonneg_of_nonneg 15 100 (by omega))
    rw [qmul_eq, ratN_eq]
    exact mul_nonneg (by positivity) (mkRat_nonneg_of_nonneg 5 100 (by omega))
  constructor
  · refine le_min ?_ zero_le_one
    rw [qadd_eq]
    exact add_nonneg h hboost
  · exact min_le_right _ _

/-- All scores the loop accumulates lie in `[0, 1]`. -/
theorem retrieveLoop_scores (top_k : Nat) (threshold : ℚ)
    (md : List DocRecord) :
    ∀ (cands : List (ℚ × Int)) (seen : List PyStr) (ms : ℚ)
      (res : List RetrievalResult),
      (∀ r ∈ res, 0 ≤ r.score ∧ r.score ≤ 1) →
      ∀ r ∈ (retrieveLoop top_k threshold md cands seen ms res).1,
        0 ≤ r.score ∧ r.score ≤ 1
  | [], _seen, _ms, res, hres, r, hr => by
    refine hres r ?_
    simpa [retrieveLoop] using hr
  | (d, i) :: rest, seen, ms, res, hres, r, hr => by
    by_cases hi : i = -1
    · exact hres r (by simpa [retrieveLoop, hi] using hr)
    · simp only [retrieveLoop, if_neg hi] at hr
      by_cases hseen : docSource (docLookup md i) ∈ seen
      · simp only [if_pos hseen] at hr
        exact retrieveLoop_scores top_k threshold md rest seen _ res hres r hr
      · simp only [if_neg hseen] at hr
        have hres' : ∀ s ∈
            (if clamp01 d ≥ threshold then res ++ [newResult md i (clamp01 d)]
            else res), 0 ≤ s.score ∧ s.score ≤ 1 := by
          intro s hs
          split at hs
          · rcases List.mem_append.mp hs with hs | hs
            · exact hres s hs
            · rw [List.mem_singleton] at hs
              subst hs
              exact ⟨clamp01_nonneg d, clamp01_le_one d⟩
          · exact hres s hs
        by_cases hlen :
            (if clamp01 d ≥ threshold then res ++ [newResult md i (clamp01 d)]
            else res).length ≥ top_k
        · simp only [if_pos hlen] at hr
          exact hres' r hr
        · simp only [if_neg hlen] at hr
          exact retrieveLoop_scores top_k threshold md rest _ _ _ hres' r hr

/-- C3: every score `Retriever.retrieve` returns lies in `[0, 1]`, with or
without reranking (retriever.py lines 89-96 and 217-228). -/
theorem retrieve_scores_unit (cfg : RetrieverConfig) (cands : List (ℚ × Int))
    (md : List DocRecord) (query : PyStr) (top_k? : Option Nat)
    (similarity_threshold? : Option ℚ) :
    ∀ r ∈ retrieve cfg cands md query top_k? similarity_threshold?,
      0 ≤ r.score ∧ r.score ≤ 1 := by
  intro r hr
  simp only [retrieve] at hr
  split at hr
  · cases hr
  · have base := retrieveLoop_scores (top_k?.getD cfg.top_k)
      (similarity_threshold?.getD cfg.similarity_threshold) md
      (cands.take ((top_k?.getD cfg.top_k) * 3)) [] 0 []
      (by intro s hs; cases hs)
    split at hr
    · rcases (mem_rerank_results _ _ _).mp hr with ⟨s, hs, rfl⟩
      exact rerankBoost_score_bounds _ s (base s hs).1
    · exact base r hr

/-- Witness for C3 at a concrete input with reranking enabled: the boosted
top result of a two-source index has its score capped inside `[0, 1]`. -/
theorem retrieve_scores_unit_witness :
    (⟨pys "alpha beta", { source := some (pys "s1") }, 1⟩ : RetrievalResult) ∈
      retrieve ⟨5, mkRat 7 10, true, mkRat 8 10⟩ [(mkRat 97 100, 0)]
        [ { content := some (pys "alpha beta"),
            metadata := some { source := some (pys "s1") } } ]
        (pys "alpha beta") none none ∧
    (0:ℚ) ≤ (1:ℚ) ∧ (1:ℚ) ≤ 1 :=
  ⟨by decide,
    retrieve_scores_unit ⟨5, mkRat 7 10, true, mkRat 8 10⟩ [(mkRat 97 100, 0)]
      [ { content := some (pys "alpha beta"),
          metadata := some { source := some (pys "s1") } } ]
      (pys "alpha beta") none none
      ⟨pys "alpha beta", { source := some (pys "s1") }, 1⟩ (by decide)⟩

/-- When the over-fetch count is positive the index call succeeds and the
full `Retriever.retrieve` call is the pure candidate walk. -/
theorem retrieveE_ok (cfg : RetrieverConfig) (cands : List (ℚ × Int))
    (md : List DocRecord) (query : PyStr) (top_k? : Option Nat)
    (similarity_threshold? : Option ℚ)
    (h : top_k?.getD cfg.top_k * 3 ≠ 0) :
    retrieveE cfg cands md query top_k? similarity_threshold? =
      Except.ok (retrieve cfg cands md query top_k? similarity_threshold?)
    := by
  simp only [retrieveE, index_search, if_neg h]

/-- C4: calling `Retriever.retrieve` with `top_k = 0` is rejected and
does not silently return an empty result list: `search_k` is 0, FAISS
validates the search size (`assert k > 0` in its Python wrapper), so
`self.index.search(query_vector, 0)` raises — the exception is logged and
re-raised at retriever.py lines 151-153, so the call errors out as
invalid input for every index, metadata table, query and threshold
(retriever.py lines 58-75 themselves contain only the `None`-default
handling). -/
theorem retrieve_topk_zero_rejected (cfg : RetrieverConfig)
    (cands : List (ℚ × Int)) (md : List DocRecord) (query : PyStr)
    (similarity_threshold? : Option ℚ) :
    retrieveE cfg cands md query (some 0) similarity_threshold? =
      Except.error (pys "assert k > 0") ∧
    retrieveE cfg cands md query (some 0) similarity_threshold? ≠
      Except.ok [] := by
  have h : retrieveE cfg cands md query (some 0) similarity_threshold? =
      Except.error (pys "assert k > 0") := rfl
  refine ⟨h, ?_⟩
  rw [h]
  exact fun hc => Except.noConfusion hc


/-- C5 (amended): when the answer contains a "no information" phrase and
the retrieved set is nonempty, `_calculate_faithfulness` returns 1.0 when
the retrieval score is below 0.3 and 0.8 otherwise
(rag_metrics.py lines 190-206). -/
theorem faithfulness_no_info (stop_words : List PyStr) (answer : PyStr)
    (retrieved_docs : List RetrievalResult) (hans : answer ≠ [])
    (hdocs : retrieved_docs ≠ [])
    (hphrase : noInfoPhrasesFaith.any
      (fun p => pyContains (pyLower answer) p) = true) :
    calculate_faithfulness stop_words answer retrieved_docs =
      if calculate_retrieval_score retrieved_docs < mkRat 3 10 then 1
      else mkRat 8 10 := by
  unfold calculate_faithfulness
  rw [if_neg (by simp [hans, hdocs])]
  simp only [hphrase, if_true]
  by_cases hlt : calculate_retrieval_score retrieved_docs < mkRat 3 10
  · rw [if_pos (Or.inr hlt), if_pos hlt]
  · rw [if_neg (by simp [hdocs, hlt]), if_neg hlt]

/-- Witness for C5's amended claim at the concrete Scenario-E input: a
declining answer over a retrieved set with retrieval score 0.2 scores
faithfulness 1.0. -/
theorem faithfulness_no_info_witness :
    calculate_faithfulness fallbackStopWords noInfoAnswerEx docsScore02Ex
      = 1 := by
  rw [faithfulness_no_info fallbackStopWords noInfoAnswerEx docsScore02Ex
    (by decide) (by decide) (by decide)]
  rw [if_pos (by decide)]

/-- Counterexample to C5 as stated: with the same declining answer but an
empty retrieved set ("retrieval was genuinely weak"), the guard at the top
of `_calculate_faithfulness` (rag_metrics.py line 184) returns 0.0, not
the claimed 1.0 — the `not retrieved_docs` disjunct of line 203 is
unreachable. -/
theorem faithfulness_empty_docs_counterexample :
    calculate_faithfulness fallbackStopWords noInfoAnswerEx [] = 0 ∧
    (0 : ℚ) ≠ 1 :=
  ⟨by decide, zero_ne_one⟩

/-- C7: the evaluator's overall score is exactly the fixed weighted sum
`0.30·retrieval_score + 0.25·faithfulness + 0.25·relevance +
0.20·completeness`, a missing component contributing 0
(rag_metrics.py lines 406-427). -/
theorem overall_score_weighted_sum (metrics : List (PyStr × ℚ)) :
    calculate_overall_score metrics =
      (30:ℚ)/100 * dictGet metrics (pys "retrieval_score") 0 +
      (25:ℚ)/100 * dictGet metrics (pys "faithfulness") 0 +
      (25:ℚ)/100 * dictGet metrics (pys "relevance") 0 +
      (20:ℚ)/100 * dictGet metrics (pys "completeness") 0 := by
  simp only [calculate_overall_score, qsum, List.map, List.foldl, qadd_eq,
    qmul_eq, Rat.mkRat_eq_div]
  push_cast
  ring


/-- C6: whenever the formatted context exceeds `max_context_length`
characters, the built prompt contains exactly the first
`max_context_length` characters of the context followed by the
`"\n...(truncated)"` marker, and the full question text is still present
(prompt_builder.py lines 44-65). -/
theorem build_prompt_truncation (max_context_length : Nat) (question : PyStr)
    (retrieved_docs : List RetrievalResult)
    (chat_history : Option (List ChatMessage))
    (h : (format_context retrieved_docs).length > max_context_length) :
    (∃ pre post,
      build_prompt max_context_length question retrieved_docs chat_history =
        pre ++ ((format_context retrieved_docs).take max_context_length ++
          pys "\n...(truncated)") ++ post) ∧
    ((format_context retrieved_docs).take max_context_length).length =
      max_context_length ∧
    (∃ a b,
      build_prompt max_context_length question retrieved_docs chat_history =
        a ++ question ++ b) := by
  refine ⟨?_, ?_, ?_⟩
  · rcases chat_history with _ | ⟨_ | ⟨m, ms⟩⟩
    · exact ⟨pys "Context information is below:\n---------------------\n",
        pys "\n---------------------\n\nGiven the context information above, please answer the following question THOROUGHLY and COMPLETELY.\n\nDO NOT include source filenames in your answer - sources will be displayed separately.\n\nQuestion: " ++
          question ++ pys "\n\nAnswer: ",
        by simp [build_prompt, if_pos h, QUERY_PROMPT_TEMPLATE_fmt]⟩
    · exact ⟨pys "Context information is below:\n---------------------\n",
        pys "\n---------------------\n\nGiven the context information above, please answer the following question THOROUGHLY and COMPLETELY.\n\nDO NOT include source filenames in your answer - sources will be displayed separately.\n\nQuestion: " ++
          question ++ pys "\n\nAnswer: ",
        by simp [build_prompt, if_pos h, QUERY_PROMPT_TEMPLATE_fmt]⟩
    · exact ⟨pys "Context information is below:\n---------------------\n",
        pys "\n---------------------\n\nChat History:\n" ++
          format_chat_history (m :: ms) ++
          pys "\n\nGiven the context information and chat history above, please answer the following question.\nIf you cannot answer based on the context, say so clearly.\n\nQuestion: " ++
          question ++ pys "\n\nAnswer: ",
        by simp [build_prompt, if_pos h, CHAT_PROMPT_TEMPLATE_fmt]⟩
  · rw [List.length_take]
    omega
  · rcases chat_history with _ | ⟨_ | ⟨m, ms⟩⟩
    · exact ⟨pys "Context information is below:\n---------------------\n" ++
        (List.take max_context_length (format_context retrieved_docs) ++
          pys "\n...(truncated)") ++
        pys "\n---------------------\n\nGiven the context information above, please answer the following question THOROUGHLY and COMPLETELY.\n\nDO NOT include source filenames in your answer - sources will be displayed separately.\n\nQuestion: ",
        pys "\n\nAnswer: ",
        by simp [build_prompt, if_pos h, QUERY_PROMPT_TEMPLATE_fmt]⟩
    · exact ⟨pys "Context information is below:\n---------------------\n" ++
        (List.take max_context_length (format_context retrieved_docs) ++
          pys "\n...(truncated)") ++
        pys "\n---------------------\n\nGiven the context information above, please answer the following question THOROUGHLY and COMPLETELY.\n\nDO NOT include source filenames in your answer - sources will be displayed separately.\n\nQuestion: ",
        pys "\n\nAnswer: ",
        by simp [build_prompt, if_pos h, QUERY_PROMPT_TEMPLATE_fmt]⟩
    · exact ⟨pys "Context information is below:\n---------------------\n" ++
        (List.take max_context_length (format_context retrieved_docs) ++
          pys "\n...(truncated)") ++
        pys "\n---------------------\n\nChat History:\n" ++
        format_chat_history (m :: ms) ++
        pys "\n\nGiven the context information and chat history above, please answer the following question.\nIf you cannot answer based on the context, say so clearly.\n\nQuestion: ",
        pys "\n\nAnswer: ",
        by simp [build_prompt, if_pos h, CHAT_PROMPT_TEMPLATE_fmt]⟩

/-- Witness for C6 at a concrete input: a 10-character bound forces the
truncated context plus marker into the prompt, and the question text
survives. -/
theorem build_prompt_truncation_witness :
    (∃ pre post,
      build_prompt 10 (pys "what is gitlab?") truncDocsEx none =
        pre ++ ((format_context truncDocsEx).take 10 ++
          pys "\n...(truncated)") ++ post) ∧
    ((format_context truncDocsEx).take 10).length = 10 ∧
    (∃ a b,
      build_prompt 10 (pys "what is gitlab?") truncDocsEx none =
        a ++ pys "what is gitlab?" ++ b) :=
  build_prompt_truncation 10 (pys "what is gitlab?") truncDocsEx none
    (by decide)


theorem chunkListGo_flatten (batch_size : Nat) (hbs : 0 < batch_size) :
    ∀ (fuel : Nat) (l : List PyStr), l.length ≤ fuel →
      (chunkListGo batch_size fuel l).flatten = l
  | 0, l, h => by
    have : l = [] := List.eq_nil_of_length_eq_zero (by omega)
    subst this
    rfl
  | fuel + 1, [], _ => rfl
  | fuel + 1, x :: xs, h => by
    simp only [chunkListGo, List.flatten_cons]
    rw [chunkListGo_flatten batch_size hbs fuel ((x :: xs).drop batch_size)
      (by
        simp only [List.length_drop, List.length_cons]
        simp only [List.length_cons] at h
        omega)]
    exact List.take_append_drop _ _

/-- C8 (amended): the single-text embedder returns the zero-vector
sentinel of the configured dimension for text that cleans to nothing and
never calls the service on it, while the batch embedder has no such
sentinel: the concatenation of the batches it sends to the service is
exactly the cleaned input texts, empty strings included
(embedder.py lines 31-44 and 61-80). -/
theorem embedder_empty_sentinel (dimension : Nat) (service : PyStr → List ℚ)
    (text : PyStr) (batch_size : Nat) (texts : List PyStr)
    (hempty : cleanText text = []) (hbs : 0 < batch_size) :
    embed_text dimension service text = List.replicate dimension 0 ∧
    (embed_batch_requests batch_size texts).flatten = texts.map cleanText := by
  constructor
  · unfold embed_text
    rw [hempty]
    rfl
  · have hflat : ∀ (L : List (List PyStr)),
        (L.map fun batch => batch.map cleanText).flatten =
          L.flatten.map cleanText := by
      intro L
      induction L with
      | nil => rfl
      | cons b bs ih =>
        simp only [List.map_cons, List.flatten_cons, List.map_append, ih]
    rw [embed_batch_requests, hflat, chunkList,
      chunkListGo_flatten batch_size hbs texts.length texts le_rfl]

/-- Witness for C8's amended claim at concrete inputs: a whitespace-only
text embeds to the zero vector of dimension 3, and a batch containing a
whitespace-only text sends exactly the cleaned texts (one of them empty)
to the service. -/
theorem embedder_empty_sentinel_witness :
    embed_text 3 (fun _ => [mkRat 1 2]) (pys " \n ") =
      List.replicate 3 0 ∧
    (embed_batch_requests 100 [pys "alpha", pys "  "]).flatten =
      [pys "alpha", pys "  "].map cleanText :=
  embedder_empty_sentinel 3 (fun _ => [mkRat 1 2]) (pys " \n ") 100
    [pys "alpha", pys "  "] (by decide) (by decide)

/-- Counterexample to C8 as stated: for a whitespace-only text,
`embed_batch` does not yield a zero vector — the cleaned empty string is
passed to the embedding service (the request batch is `[""]`) and
whatever the service returns comes back. -/
theorem embed_batch_empty_counterexample :
    embed_batch constOneService 100 [pys "   "] = [[1, 1, 1]] ∧
    [[(1:ℚ), 1, 1]] ≠ [List.replicate 3 (0:ℚ)] ∧
    embed_batch_requests 100 [pys "   "] = [[[]]] :=
  ⟨by decide, by decide, by decide⟩


/-- C9 (amended): when the retriever raises during query processing,
`stream_query` yields to the user a single fragment `"Error: "` followed
by the exception's own text (leaking it), and the blocking `query`
re-raises the exception to its caller; nothing replaces either with a
generic failure message (rag_pipeline.py lines 306-308 and 219-221). -/
theorem pipeline_error_exposure (env : PipelineEnv) (question : PyStr)
    (chat_history : Option (List ChatMessage)) (top_k? : Option Nat)
    (e : PyStr) (herr : env.retrieveFn question top_k? = .error e)
    (hg : is_greeting question = false)
    (hi : is_intro_request question = false) :
    streamQuery env question chat_history top_k? = [pys "Error: " ++ e] ∧
    queryFn env question chat_history top_k? = .error e := by
  constructor
  · unfold streamQuery
    rw [herr]
  · unfold queryFn
    rw [hg, hi, herr]
    rfl

/-- Witness for C9's amended claim at a concrete input. -/
theorem pipeline_error_exposure_witness :
    streamQuery envBoom (pys "what is the pto policy") none none =
      [pys "Error: boom"] ∧
    queryFn envBoom (pys "what is the pto policy") none none =
      .error (pys "boom") :=
  pipeline_error_exposure envBoom (pys "what is the pto policy") none none
    (pys "boom") rfl (by decide) (by decide)

/-- Counterexample to C9 as stated: the user-visible streamed response for
an internal failure with exception text `"boom"` is exactly
`"Error: boom"` — it contains the exception's text, so it is not a
generic failure message. -/
theorem stream_error_leak_counterexample :
    streamQuery envBoom (pys "how do i request leave") none none =
      [pys "Error: boom"] ∧
    pyContains (pys "Error: boom") (pys "boom") = true :=
  ⟨rfl, by decide⟩

/-- C10: `stream_query` classifies no intent and rechecks no best score:
whatever the question (greetings included), its output is determined by
the retrieval outcome alone — empty retrieval yields exactly the one
apology fragment (which is neither canned intent response), non-empty
retrieval always proceeds to generation (`streamGenOut`) no matter the
scores; `"hello"` does match the greeting classifier, and the blocking
`query` (unlike `stream_query`) short-circuits it to the canned greeting
(rag_pipeline.py lines 253-308 versus 127-151). -/
theorem stream_query_no_intent_branch (env : PipelineEnv) (question : PyStr)
    (chat_history : Option (List ChatMessage)) (top_k? : Option Nat)
    (docs : List RetrievalResult)
    (hdocs : env.retrieveFn question top_k? = .ok docs) :
    (docs = [] →
      streamQuery env question chat_history top_k? = [stream_apology]) ∧
    (docs ≠ [] →
      streamQuery env question chat_history top_k? =
        streamGenOut env question chat_history docs) ∧
    is_greeting (pys "hello") = true ∧
    stream_apology ≠ greeting_response ∧
    stream_apology ≠ intro_response ∧
    queryFn env (pys "hello") chat_history top_k? =
      .ok { answer := greeting_response, sources := [], retrieved_docs := [],
            model := env.model, is_greeting := true } := by
  have hg : is_greeting (pys "hello") = true := by decide
  refine ⟨?_, ?_, hg, by decide, by decide, ?_⟩
  · intro hnil
    subst hnil
    unfold streamQuery
    rw [hdocs]
  · intro hne
    rcases docs with _ | ⟨d, ds⟩
    · exact absurd rfl hne
    · unfold streamQuery
      rw [hdocs]
  · unfold queryFn
    rw [hg]
    rfl

/-- Witness for C10 at the concrete greeting question `"hello"` with
empty retrieval. -/
theorem stream_query_no_intent_branch_witness :
    (([] : List RetrievalResult) = [] →
      streamQuery envEmpty (pys "hello") none none = [stream_apology]) ∧
    (([] : List RetrievalResult) ≠ [] →
      streamQuery envEmpty (pys "hello") none none =
        streamGenOut envEmpty (pys "hello") none []) ∧
    is_greeting (pys "hello") = true ∧
    stream_apology ≠ greeting_response ∧
    stream_apology ≠ intro_response ∧
    queryFn envEmpty (pys "hello") none none =
      .ok { answer := greeting_response, sources := [], retrieved_docs := [],
            model := envEmpty.model, is_greeting := true } :=
  stream_query_no_intent_branch envEmpty (pys "hello") none none [] rfl
